import Mathlib

/-!
Shallow embedding of the event-management service of the
interactive-broadcast-api repository (src/unnamed/part_001, the event
module), together with the pieces of its collaborators that the module
uses: the Ramda object combinators it calls, the Firebase realtime
database it reads and writes (modelled as an association list of
record objects), and the OpenTok gateway / auth-role / db-property
constants it imports (those modules are not part of the sources, so
they are modelled from the spec, as marked on each definition).

A JavaScript object is modelled as a partial map from property names
to JavaScript values (`JsObj`); an absent key is `none`.  The Firebase
server-timestamp sentinel `TS` is modelled by threading the current
server time `now` through every write operation.
-/

/-- A JavaScript value as it occurs in the event records: `null`, a
boolean, a string, or a number (timestamps are numbers). -/
inductive JsVal where
  | null
  | bool (b : Bool)
  | str (s : String)
  | num (n : Int)
deriving DecidableEq

/-- A JavaScript object: a partial map from property names to values.
An absent property is `none`. -/
def JsObj := String → Option JsVal

/-- The object with no own properties; also how an `Error` instance
behaves as a merge operand (the `message`/`stack` of an `Error` are own but
non-enumerable properties, so `R.mergeAll` copies nothing from it). -/
def emptyObj : JsObj := fun _ => none

/-- Object literal built from a key/value list (keys assumed distinct,
as in every literal of the source). -/
def objOf (l : List (String × JsVal)) : JsObj :=
  fun k => (l.find? (fun p => p.1 == k)).map (fun p => p.2)

/-- Property assignment `o.k = v` (used by `changeStatus` when it adds
a timestamp to its update payload). -/
def objSet (o : JsObj) (k : String) (v : JsVal) : JsObj :=
  fun k2 => if k2 = k then some v else o k2

/-- Combinator `R.pick props o`: keeps only the listed keys that exist on `o`. -/
def rPick (props : List String) (o : JsObj) : JsObj :=
  fun k => if k ∈ props then o k else none

/-- Combinator `R.merge a b`: right operand wins on key collisions. -/
def rMerge (a b : JsObj) : JsObj :=
  fun k =>
    match b k with
    | some v => some v
    | none => a k

/-- Combinator `R.mergeAll l`: merge left to right, later objects override. -/
def rMergeAll (l : List JsObj) : JsObj := l.foldl rMerge emptyObj

/-- Combinator `R.defaultTo d v`: the source applies it to values of keys that
exist, so the only replaced value is `null` (an absent key never
reaches it, see `setDefaults`). -/
def defaultTo (d : JsVal) (v : JsVal) : JsVal :=
  if v = JsVal.null then d else v

/- Modelled from the spec: the `eventStatuses` constants of the
`dbProperties` module (not among the sources).  The spec scenarios use
the lowercase spellings `"live"`/`"closed"`; the four states are
`NOT_STARTED`, `PRESHOW`, `LIVE`, `CLOSED`. -/
namespace eventStatuses

def NOT_STARTED : String := "notStarted"

def PRESHOW : String := "preshow"

def LIVE : String := "live"

def CLOSED : String := "closed"

end eventStatuses

/-- Modelled from the spec: the `eventProps` whitelist of the
`dbProperties` module (not among the sources); the fixed set of known
Event attributes of spec section 3 (plus `name`, which section 4.4
reads from the event). -/
def eventProps : List String :=
  ["id", "adminId", "name", "fanUrl", "hostUrl", "celebrityUrl",
   "sessionId", "stageSessionId", "status", "archiveEvent", "composed",
   "archiveId", "rtmpUrl", "createdAt", "updatedAt",
   "showStartedAt", "showEndedAt"]

/-- Modelled from the spec: the Firebase server-timestamp sentinel
`TS` of the `dbProperties` module, resolved to the current server time
`now` at write time. -/
def TS (now : Int) : JsVal := JsVal.num now

/-- Modelled from the spec: `timestampCreate` of the `dbProperties`
module stamps `createdAt`/`updatedAt`. -/
def timestampCreate (now : Int) : JsObj :=
  objOf [("createdAt", TS now), ("updatedAt", TS now)]

/-- Modelled from the spec: `timestampUpdate` of the `dbProperties`
module stamps `updatedAt`. -/
def timestampUpdate (now : Int) : JsObj :=
  objOf [("updatedAt", TS now)]

/-- Source `setDefaults` (part_001 lines 9-17): `R.evolve` with
`R.defaultTo` transformations for `status`, `archiveEvent`,
`composed`.  `R.evolve` does not invoke a transformation whose key
does not exist in the object, so an absent key stays absent. -/
def setDefaults (o : JsObj) : JsObj :=
  fun k =>
    match o k with
    | none => none
    | some v =>
      if k = "status" then some (defaultTo (JsVal.str eventStatuses.NOT_STARTED) v)
      else if k = "archiveEvent" then some (defaultTo (JsVal.bool false) v)
      else if k = "composed" then some (defaultTo (JsVal.bool false) v)
      else some v

/-- Source `buildEvent` (part_001 line 18): whitelist then apply defaults. -/
def buildEvent (props : List String) (eventData : JsObj) : JsObj :=
  setDefaults (rPick props eventData)

/-- Source `buildOtData` (part_001 line 19): `JSON.stringify \x7b userType \x7d`. -/
def buildOtData (userType : String) : String :=
  "\x7b\"userType\":\"" ++ userType ++ "\"\x7d"

/-- Strict JavaScript `<` on the `createdAt` values that occur in
event records: numeric comparison when both sides are numbers, false
otherwise (the comparator the source builds with `R.ascend` returns 0
for such pairs). -/
def jsLtB : Option JsVal → Option JsVal → Bool
  | some (JsVal.num a), some (JsVal.num b) => decide (a < b)
  | _, _ => false

/-- The `R.ascend (R.prop "createdAt")` comparison. -/
def createdAtLt (a b : JsObj) : Bool := jsLtB (a "createdAt") (b "createdAt")

/-- The non-strict order induced by the ascending comparator: `a` may
stay before `b` exactly when `b` is not strictly smaller. -/
def createdLe (a b : JsObj) : Bool := !(createdAtLt b a)

/-- Records whether a property value is a number (every `createdAt`
written by the store is). -/
def isNumV : Option JsVal → Bool
  | some (JsVal.num _) => true
  | _ => false

/-- Source `sortByCreatedAt` (part_001 line 20): stable ascending sort by
`createdAt` (`R.sortWith [R.ascend (R.prop "createdAt")]`). -/
def sortByCreatedAt (l : List JsObj) : List JsObj :=
  l.mergeSort createdLe

/-- Boolean form of `R.propEq "status" s`. -/
def statusIs (s : String) (o : JsObj) : Bool :=
  o "status" == some (JsVal.str s)

/-- Source `filterByStatus` (part_001 line 21): `R.find (R.propEq "status" s)`. -/
def filterByStatus (s : String) (l : List JsObj) : Option JsObj :=
  l.find? (statusIs s)

/-- The events collection of the Firebase realtime database: an
association list of (push key, event record). -/
abbrev DB := List (String × JsObj)

/-- Source `getEvent` (part_001 lines 66-69): child lookup by key;
`snapshot.val()` is `null` when the key is absent. -/
def getEvent (id : String) (db : DB) : Option JsObj :=
  (db.find? (fun p => p.1 == id)).map (fun p => p.2)

/-- Firebase `ref.set`: replace (or insert) the record at `id`. -/
def dbSet (id : String) (o : JsObj) (db : DB) : DB :=
  if db.any (fun p => p.1 == id) then
    db.map (fun p => if p.1 == id then (id, o) else p)
  else db ++ [(id, o)]

/-- Firebase `ref.update`: merge the payload into the record at `id`
(creating the record when absent). -/
def dbUpdate (id : String) (payload : JsObj) (db : DB) : DB :=
  if db.any (fun p => p.1 == id) then
    db.map (fun p => if p.1 == id then (id, rMerge p.2 payload) else p)
  else db ++ [(id, payload)]

/-- Source `getEvents` (part_001 lines 28-31):
`orderByChild("adminId").equalTo(adminId)` over the events collection
(the record values of the matching snapshot). -/
def getEvents (adminId : String) (db : DB) : List JsObj :=
  (db.filter (fun p => p.2 "adminId" == some (JsVal.str adminId))).map (fun p => p.2)

/-- Source `getMostRecentEvent` (part_001 lines 52-59): sort the owned
events ascending by `createdAt`, then the first `live` one, else the
first `preshow` one; `null` when the admin owns no events. -/
def getMostRecentEvent (adminId : String) (db : DB) : Option JsObj :=
  let snapshot := getEvents adminId db
  if snapshot.isEmpty then none
  else
    let events := sortByCreatedAt snapshot
    match filterByStatus eventStatuses.LIVE events with
    | some e => some e
    | none => filterByStatus eventStatuses.PRESHOW events

/-- Source `getEventByKey` (part_001 lines 87-96): indexed-equality query on
the slug field, then `R.find (R.propEq "adminId" adminId)` over the
matching records; `null` when the query matches nothing. -/
def getEventByKey (adminId slug field : String) (db : DB) : Option JsObj :=
  let found := (db.filter (fun p => p.2 field == some (JsVal.str slug))).map (fun p => p.2)
  if found.isEmpty then none
  else found.find? (fun o => o "adminId" == some (JsVal.str adminId))

/-- Variant `getEventByKey` with its defaulted third parameter
(`field = "fanUrl"`). -/
def getEventByKeyDefault (adminId slug : String) (db : DB) : Option JsObj :=
  getEventByKey adminId slug "fanUrl" db

/-- Source `saveEvent` (part_001 lines 103-107): push a fresh key `id`, set
`buildEvent eventProps (R.mergeAll [timestampCreate, ⟨id⟩, data])`,
return the stored record (paired here with the updated database). -/
def saveEvent (id : String) (data : JsObj) (db : DB) (now : Int) : Option JsObj × DB :=
  let record := buildEvent eventProps
    (rMergeAll [timestampCreate now, objOf [("id", JsVal.str id)], data])
  let db2 := dbSet id record db
  (getEvent id db2, db2)

/-- Source `update` (part_001 lines 148-151): merge
`buildEvent eventProps (R.merge timestampUpdate data)` into the record
at `id`, return the refreshed record (paired with the database). -/
def update (id : String) (data : JsObj) (db : DB) (now : Int) : Option JsObj × DB :=
  let db2 := dbUpdate id (buildEvent eventProps (rMerge (timestampUpdate now) data)) db
  (getEvent id db2, db2)

/-- Source `changeStatus` (part_001 lines 159-169): stamp `showStartedAt`
when the payload status is `live`, `showEndedAt` when it is `closed`,
then `update` and re-read the event. -/
def changeStatus (id : String) (data : JsObj) (db : DB) (now : Int) : Option JsObj × DB :=
  let updateData :=
    if data "status" = some (JsVal.str eventStatuses.LIVE) then
      objSet data "showStartedAt" (TS now)
    else if data "status" = some (JsVal.str eventStatuses.CLOSED) then
      objSet data "showEndedAt" (TS now)
    else data
  let db2 := (update id updateData db now).2
  (getEvent id db2, db2)

/-- The admins collection of the database: uid to admin record;
`Admin.getAdmin` resolves a missing uid to `null`. -/
def Admins := String → Option JsObj

/-- Function `Admin.getAdmin` (part_002): child lookup by uid.  The argument is
whatever value the caller read off an object (`data.adminId`,
`event.adminId`), so a non-string or absent value finds nothing. -/
def getAdmin (admins : Admins) (uid : Option JsVal) : Option JsObj :=
  match uid with
  | some (JsVal.str s) => admins s
  | _ => none

/-- Modelled from the spec: a token of the video platform gateway
(section 4.3) is a signed credential scoped to a session id, carrying
a role and an opaque payload; it is modelled as the record of the
request that produced it. -/
structure OtToken where
  apiKey : Option JsVal
  secret : Option JsVal
  sessionId : Option JsVal
  role : String
  payload : String
deriving DecidableEq

/-- Modelled from the spec: the `\x7brole, data\x7d` options object passed to
`OpenTok.createToken`. -/
structure TokenOptions where
  role : String
  data : String
deriving DecidableEq

namespace OpenTok

/- Modelled from the spec: the role constants of the gateway
(moderator/publisher, section 4.3). -/
namespace otRoles

def MODERATOR : String := "moderator"

def PUBLISHER : String := "publisher"

end otRoles

/-- Modelled from the spec: `OpenTok.createToken` issues a token
scoped to `sessionId` with the requested role and payload. -/
def createToken (apiKey otSecret sessionId : Option JsVal) (options : TokenOptions) : OtToken :=
  { apiKey := apiKey, secret := otSecret, sessionId := sessionId,
    role := options.role, payload := options.data }

end OpenTok

/-- The type of the token-issuing gateway call, abstracted so that a
independence of a flow from it expresses that the flow makes no such
call. -/
def TokenGw := Option JsVal → Option JsVal → Option JsVal → TokenOptions → OtToken

/- Modelled from the spec: the `roles` constants of the auth module
(not among the sources); the participant kinds. -/
namespace roles

def PRODUCER : String := "producer"

def FAN : String := "fan"

def HOST : String := "host"

def CELEBRITY : String := "celebrity"

end roles

/-- The session-creating gateway: the result of the n-th
`OpenTok.createSession(otApiKey, otSecret)` call of an operation,
either a fresh session id or a platform failure. -/
def SessionGw := Nat → Except String String

/-- Source `getSessions` (part_001 lines 114-123): two sequential
`createSession` calls inside `try`.  The `catch` block RETURNS
`new Error("error creating sessions", error)` instead of throwing it,
and an `Error` instance has no own enumerable properties, so as a
value the caught failure behaves exactly like the empty object (see
`emptyObj`); destructuring a `null` admin throws inside the `try` and
is caught the same way. -/
def getSessions (gw : SessionGw) (admin : Option JsObj) : JsObj :=
  match admin with
  | none => emptyObj
  | some _ =>
    match gw 0 with
    | Except.error _ => emptyObj
    | Except.ok s1 =>
      match gw 1 with
      | Except.error _ => emptyObj
      | Except.ok s2 =>
        objOf [("sessionId", JsVal.str s1), ("stageSessionId", JsVal.str s2)]

/-- Source `create` (part_001 lines 133-140): load the admin, provision the
two sessions, merge `[\x7bstatus, rtmpUrl\x7d, data, sessions]` left to
right, persist via `saveEvent` under the fresh push key `id`. -/
def create (gw : SessionGw) (admins : Admins) (id : String) (data : JsObj)
    (db : DB) (now : Int) : Option JsObj × DB :=
  let admin := getAdmin admins (data "adminId")
  let sessions := getSessions gw admin
  let defaultValues := objOf [("status", JsVal.str eventStatuses.NOT_STARTED),
                              ("rtmpUrl", JsVal.str "")]
  saveEvent id (rMergeAll [defaultValues, data, sessions]) db now

/-- Source `createTokensFan` (part_001 lines 243-248): two publisher tokens
with payload `userType = "fan"`; the backstage token is scoped to
`sessionId`, the stage token to `stageSessionId` (note the argument
order of the source: stage session first, backstage session second). -/
def createTokensFan (tokGw : TokenGw) (otApiKey otSecret stageSessionId sessionId : Option JsVal) :
    OtToken × OtToken :=
  let options : TokenOptions :=
    { role := OpenTok.otRoles.PUBLISHER, data := buildOtData roles.FAN }
  let backstageToken := tokGw otApiKey otSecret sessionId options
  let stageToken := tokGw otApiKey otSecret stageSessionId options
  (backstageToken, stageToken)

/-- A JavaScript runtime failure surfaced by a flow: a `TypeError`
from dereferencing `null`/`undefined`, or a typed not-found
condition (never produced by this module, kept to state what the
claims ask for). -/
inductive JsErr where
  | typeError
  | notFound
deriving DecidableEq

/-- The object returned by `createTokenFan`. -/
structure FanTokenResult where
  apiKey : Option JsVal
  event : JsObj
  backstageToken : Option OtToken
  stageToken : Option OtToken
  httpSupport : Option JsVal

/-- Source `createTokenFan` (part_001 lines 257-268): resolve the event by
fan slug, destructure the admin, call `createTokensFan` WITHOUT
`await` and destructure the still-pending Promise, whose own
`backstageToken`/`stageToken` properties are `undefined`; so the
returned object always carries `undefined` for both tokens.  When the
slug resolves to no event, `event.adminId` throws a `TypeError`
(dereference of `null`) before anything else happens; likewise
destructuring a missing admin. -/
def createTokenFan (tokGw : TokenGw) (admins : Admins) (adminId slug : String)
    (db : DB) : Except JsErr FanTokenResult :=
  match getEventByKey adminId slug "fanUrl" db with
  | none => Except.error JsErr.typeError
  | some event =>
    match getAdmin admins (event "adminId") with
    | none => Except.error JsErr.typeError
    | some admin =>
      let otApiKey := admin "otApiKey"
      let otSecret := admin "otSecret"
      let httpSupport := admin "httpSupport"
      let _pending := createTokensFan tokGw otApiKey otSecret
        (event "stageSessionId") (event "sessionId")
      Except.ok { apiKey := otApiKey, event := event,
                  backstageToken := none, stageToken := none,
                  httpSupport := httpSupport }

/-! Concrete fixtures used by witnesses, counterexamples and
failing-input evaluations. -/

/-- An event with a fan slug, used as stored content in fixtures. -/
def evFan : JsObj :=
  objOf [("id", JsVal.str "e1"), ("adminId", JsVal.str "a1"),
         ("fanUrl", JsVal.str "alpha"),
         ("sessionId", JsVal.str "s1"), ("stageSessionId", JsVal.str "s2")]

/-- A one-event store owning `evFan`. -/
def dbFan : DB := [("e1", evFan)]

/-- An admin directory with one admin `a1` holding the platform
credentials and the HTTP-support flag. -/
def adminsFix : Admins :=
  fun u =>
    if u = "a1" then
      some (objOf [("otApiKey", JsVal.str "k"), ("otSecret", JsVal.str "sec"),
                   ("httpSupport", JsVal.bool true)])
    else none

/-- The admin record `adminsFix` resolves for `a1`. -/
def adminFixObj : JsObj :=
  objOf [("otApiKey", JsVal.str "k"), ("otSecret", JsVal.str "sec"),
         ("httpSupport", JsVal.bool true)]

/-- Input data supplying `adminId` and an unknown key, but none of the
defaultable fields. -/
def dataA : JsObj := objOf [("adminId", JsVal.str "a1"), ("secretField", JsVal.str "x")]

/-- A session gateway on which every `createSession` call fails. -/
def gwFail : SessionGw := fun _ => Except.error "platform down"

/-- A session gateway returning the fresh distinct ids `s1`, `s2`. -/
def gwOK : SessionGw := fun n => Except.ok (if n = 0 then "s1" else "s2")

/-- A live event created later than the preshow one (`createdAt` 5). -/
def eLiveW : JsObj :=
  objOf [("adminId", JsVal.str "aw"), ("status", JsVal.str "live"),
         ("createdAt", JsVal.num 5)]

/-- A preshow event created earlier (`createdAt` 2). -/
def ePreW : JsObj :=
  objOf [("adminId", JsVal.str "aw"), ("status", JsVal.str "preshow"),
         ("createdAt", JsVal.num 2)]

/-- A store holding both events of admin `aw`, preshow first. -/
def dbW : DB := [("p1", ePreW), ("l1", eLiveW)]

/-- An event that has already been closed once (`showEndedAt` set). -/
def evW1 : JsObj :=
  objOf [("id", JsVal.str "e1"), ("adminId", JsVal.str "a1"),
         ("showEndedAt", JsVal.num 3)]

/-- A one-event store holding `evW1`. -/
def dbW1 : DB := [("e1", evW1)]

/-- The status payload of the go-live scenario. -/
def dLiveW : JsObj := objOf [("status", JsVal.str "live")]

/-- The status payload of the closing scenario. -/
def dClosedW : JsObj := objOf [("status", JsVal.str "closed")]

/-- Input data that tries to supply its own `sessionId` and overrides
the `status`/`rtmpUrl` defaults. -/
def dataC10 : JsObj :=
  objOf [("adminId", JsVal.str "a1"), ("status", JsVal.str "preshow"),
         ("rtmpUrl", JsVal.str "r1"), ("sessionId", JsVal.str "hack")]

/-! Helper lemmas about the object and store combinators. -/

theorem rMerge_eq_of_some (a b : JsObj) (k : String) (v : JsVal) (h : b k = some v) :
    rMerge a b k = some v := by
  unfold rMerge
  rw [h]

theorem rMerge_eq_of_none (a b : JsObj) (k : String) (h : b k = none) :
    rMerge a b k = a k := by
  unfold rMerge
  rw [h]

theorem rMerge_empty_left (a : JsObj) (k : String) : rMerge emptyObj a k = a k := by
  unfold rMerge emptyObj
  cases a k <;> rfl

theorem rMergeAll_three (a b c : JsObj) (k : String) :
    rMergeAll [a, b, c] k = rMerge (rMerge a b) c k := by
  show rMerge (rMerge (rMerge emptyObj a) b) c k = rMerge (rMerge a b) c k
  unfold rMerge
  cases c k
  · cases b k
    · exact rMerge_empty_left a k
    · rfl
  · rfl

theorem buildEvent_key (props : List String) (o : JsObj) (k : String)
    (hk : k ∈ props) (h1 : k ≠ "status") (h2 : k ≠ "archiveEvent") (h3 : k ≠ "composed") :
    buildEvent props o k = o k := by
  unfold buildEvent setDefaults rPick
  rw [if_pos hk]
  cases o k with
  | none => rfl
  | some v => simp [h1, h2, h3]

theorem buildEvent_status (props : List String) (o : JsObj) (v : JsVal)
    (hk : "status" ∈ props) (ho : o "status" = some v) (hv : v ≠ JsVal.null) :
    buildEvent props o "status" = some v := by
  unfold buildEvent setDefaults rPick
  rw [if_pos hk, ho]
  simp [defaultTo, hv]

theorem objSet_self (o : JsObj) (k : String) (v : JsVal) : objSet o k v k = some v := by
  unfold objSet
  simp

theorem objSet_ne (o : JsObj) (k : String) (v : JsVal) (k2 : String) (h : k2 ≠ k) :
    objSet o k v k2 = o k2 := by
  unfold objSet
  simp [h]

theorem find?_map_replace (id : String) (o : JsObj) (db : DB)
    (h : db.any (fun p => p.1 == id) = true) :
    (db.map (fun p => if p.1 == id then (id, o) else p)).find? (fun p => p.1 == id)
      = some (id, o) := by
  induction db with
  | nil => simp at h
  | cons p tl ih =>
    by_cases hp : (p.1 == id) = true
    · simp only [List.map, hp, if_true]
      rw [List.find?_cons_of_pos]
      simp
    · simp only [List.any_cons, Bool.or_eq_true] at h
      rcases h with h | h
      · exact absurd h hp
      · simp only [List.map, hp, if_false]
        rw [List.find?_cons_of_neg _ (by simpa using hp)]
        exact ih h

theorem find?_map_update (id : String) (payload : JsObj) (db : DB) (pr : String × JsObj)
    (h : db.find? (fun p => p.1 == id) = some pr) :
    (db.map (fun p => if p.1 == id then (id, rMerge p.2 payload) else p)).find?
      (fun p => p.1 == id) = some (id, rMerge pr.2 payload) := by
  induction db with
  | nil => simp at h
  | cons q tl ih =>
    by_cases hq : (q.1 == id) = true
    · rw [List.find?_cons_of_pos (p := fun r : String × JsObj => r.1 == id) tl hq] at h
      cases h
      simp only [List.map]
      rw [if_pos hq]
      exact List.find?_cons_of_pos (p := fun r : String × JsObj => r.1 == id) _ (by simp)
    · rw [List.find?_cons_of_neg (p := fun r : String × JsObj => r.1 == id) tl hq] at h
      simp only [List.map]
      rw [if_neg hq]
      rw [List.find?_cons_of_neg (p := fun r : String × JsObj => r.1 == id) _ hq]
      exact ih h

theorem getEvent_dbSet_self (id : String) (o : JsObj) (db : DB) :
    getEvent id (dbSet id o db) = some o := by
  unfold getEvent dbSet
  by_cases h : db.any (fun p => p.1 == id) = true
  · rw [if_pos h, find?_map_replace id o db h]
    rfl
  · rw [if_neg h]
    have hnone : db.find? (fun p => p.1 == id) = none := by
      rw [List.find?_eq_none]
      intro p hp
      intro hc
      exact h (List.any_eq_true.mpr ⟨p, hp, hc⟩)
    rw [List.find?_append, hnone]
    simp

theorem getEvent_dbUpdate_self (id : String) (payload : JsObj) (db : DB) (ev : JsObj)
    (h : getEvent id db = some ev) :
    getEvent id (dbUpdate id payload db) = some (rMerge ev payload) := by
  unfold getEvent at h ⊢
  rcases Option.map_eq_some'.mp h with ⟨pr, hpr, hev⟩
  have hpred : (pr.1 == id) = true := List.find?_some (p := fun q : String × JsObj => q.1 == id) hpr
  have hany : db.any (fun p => p.1 == id) = true :=
    List.any_eq_true.mpr ⟨pr, List.mem_of_find?_eq_some hpr, hpred⟩
  unfold dbUpdate
  rw [if_pos hany, find?_map_update id payload db pr hpr]
  rw [← hev]
  rfl


theorem timestampUpdate_ne (now : Int) (k : String) (h : k ≠ "updatedAt") :
    timestampUpdate now k = none := by
  unfold timestampUpdate objOf
  have hb : (("updatedAt" : String) == k) = false := beq_eq_false_iff_ne.mpr (Ne.symm h)
  simp [List.find?, hb]

theorem payload_key_some (u : JsObj) (now : Int) (k : String) (v : JsVal)
    (hk : k ∈ eventProps) (h1 : k ≠ "status") (h2 : k ≠ "archiveEvent") (h3 : k ≠ "composed")
    (hu : u k = some v) :
    buildEvent eventProps (rMerge (timestampUpdate now) u) k = some v := by
  rw [buildEvent_key _ _ _ hk h1 h2 h3]
  exact rMerge_eq_of_some _ _ _ _ hu

theorem payload_key_none (u : JsObj) (now : Int) (k : String)
    (hk : k ∈ eventProps) (h1 : k ≠ "status") (h2 : k ≠ "archiveEvent") (h3 : k ≠ "composed")
    (h4 : k ≠ "updatedAt") (hu : u k = none) :
    buildEvent eventProps (rMerge (timestampUpdate now) u) k = none := by
  rw [buildEvent_key _ _ _ hk h1 h2 h3, rMerge_eq_of_none _ _ _ hu]
  exact timestampUpdate_ne now k h4

theorem payload_status (u : JsObj) (now : Int) (v : JsVal)
    (hu : u "status" = some v) (hv : v ≠ JsVal.null) :
    buildEvent eventProps (rMerge (timestampUpdate now) u) "status" = some v := by
  apply buildEvent_status _ _ _ (by decide)
  · exact rMerge_eq_of_some _ _ _ _ hu
  · exact hv

/-- C2: `save(data)` applies field whitelisting (the unknown
`secretField` is dropped and `adminId` kept), but the claimed defaults
are NOT applied when the caller omits the fields: `R.evolve` skips
keys that are absent from the picked object, so the persisted record
of this input has no `status`, `archiveEvent` or `composed` at all,
where the claim requires `notStarted`/`false`/`false`. -/
theorem saveEvent_defaults_skipped_on_absent_keys :
    ((saveEvent "e1" dataA [] 100).1).map
        (fun o => (o "status", o "archiveEvent", o "composed", o "secretField", o "adminId")) =
      some (none, none, none, none, some (JsVal.str "a1")) := by
  decide

/-- C5: when every `createSession` call fails, `getSessions` RETURNS
(instead of throwing) its error object, so `create` proceeds: it
persists an event record (the store grows by one) with no
`sessionId`/`stageSessionId`, and resolves successfully with that
record — no "session creation failed" error reaches the caller and
the persistence step is not aborted. -/
theorem create_persists_despite_session_failure :
    ((create gwFail adminsFix "e1" dataA [] 100).1).map
        (fun o => (o "sessionId", o "stageSessionId", o "status")) =
      some (none, none, some (JsVal.str "notStarted"))
    ∧ ((create gwFail adminsFix "e1" dataA [] 100).2).length = 1 := by
  constructor
  · decide
  · decide

/-- C6: `createTokenFan` on a slug owned by nobody dereferences the
`null` event (`event.adminId`), surfacing a raw `TypeError` rather
than a typed not-found condition; the result does not depend on the
token gateway, i.e. the failure happens before any Gateway call. -/
theorem createTokenFan_missing_slug_raw_fault :
    ∀ tokGw tokGw2 : TokenGw,
      createTokenFan tokGw adminsFix "a1" "nope" dbFan = Except.error JsErr.typeError ∧
      createTokenFan tokGw adminsFix "a1" "nope" dbFan
        = createTokenFan tokGw2 adminsFix "a1" "nope" dbFan :=
  fun _ _ => ⟨rfl, rfl⟩

/-- C9: on a fully resolvable fan request the inner `createTokensFan`
would issue the two publisher/fan tokens with the claimed session
scoping (second conjunct), but `createTokenFan` never awaits that
call: the object it returns carries `undefined` for both
`backstageToken` and `stageToken` (first conjunct), contradicting the
claim that the issued tokens are returned. -/
theorem createTokenFan_tokens_undefined :
    (∃ r, createTokenFan OpenTok.createToken adminsFix "a1" "alpha" dbFan = Except.ok r ∧
        r.backstageToken = none ∧ r.stageToken = none ∧
        r.apiKey = some (JsVal.str "k") ∧ r.httpSupport = some (JsVal.bool true))
    ∧ createTokensFan OpenTok.createToken (some (JsVal.str "k")) (some (JsVal.str "sec"))
        (some (JsVal.str "s2")) (some (JsVal.str "s1")) =
      ({ apiKey := some (JsVal.str "k"), secret := some (JsVal.str "sec"),
         sessionId := some (JsVal.str "s1"), role := OpenTok.otRoles.PUBLISHER,
         payload := buildOtData roles.FAN },
       { apiKey := some (JsVal.str "k"), secret := some (JsVal.str "sec"),
         sessionId := some (JsVal.str "s2"), role := OpenTok.otRoles.PUBLISHER,
         payload := buildOtData roles.FAN }) :=
  ⟨⟨_, rfl, rfl, rfl, rfl, rfl⟩, rfl⟩

theorem changeStatus_reduce_live (id : String) (d : JsObj) (db : DB) (now : Int)
    (hs : d "status" = some (JsVal.str eventStatuses.LIVE)) :
    changeStatus id d db now =
      (getEvent id (dbUpdate id (buildEvent eventProps
          (rMerge (timestampUpdate now) (objSet d "showStartedAt" (TS now)))) db),
       dbUpdate id (buildEvent eventProps
          (rMerge (timestampUpdate now) (objSet d "showStartedAt" (TS now)))) db) := by
  unfold changeStatus update
  rw [if_pos hs]

theorem changeStatus_reduce_closed (id : String) (d : JsObj) (db : DB) (now : Int)
    (hn1 : ¬ d "status" = some (JsVal.str eventStatuses.LIVE))
    (hs : d "status" = some (JsVal.str eventStatuses.CLOSED)) :
    changeStatus id d db now =
      (getEvent id (dbUpdate id (buildEvent eventProps
          (rMerge (timestampUpdate now) (objSet d "showEndedAt" (TS now)))) db),
       dbUpdate id (buildEvent eventProps
          (rMerge (timestampUpdate now) (objSet d "showEndedAt" (TS now)))) db) := by
  unfold changeStatus update
  rw [if_neg hn1, if_pos hs]

theorem changeStatus_reduce_other (id : String) (d : JsObj) (db : DB) (now : Int)
    (hn1 : ¬ d "status" = some (JsVal.str eventStatuses.LIVE))
    (hn2 : ¬ d "status" = some (JsVal.str eventStatuses.CLOSED)) :
    changeStatus id d db now =
      (getEvent id (dbUpdate id (buildEvent eventProps
          (rMerge (timestampUpdate now) d)) db),
       dbUpdate id (buildEvent eventProps (rMerge (timestampUpdate now) d)) db) := by
  unfold changeStatus update
  rw [if_neg hn1, if_neg hn2]

/-- C1: for an existing event, `changeStatus` with a `live` payload
stamps `showStartedAt` with the current time in the same update and
leaves `showEndedAt` at its stored value; a `closed` payload stamps
`showEndedAt` and leaves a previously stored `showStartedAt`; any
other status value passes through with no extra stamping (the payload
is assumed not to carry the respective timestamp keys itself, as in
the status-only payloads of the spec). -/
theorem changeStatus_timestamp_rules (id : String) (db : DB) (d : JsObj) (now : Int)
    (ev : JsObj) (hev : getEvent id db = some ev) :
    (d "status" = some (JsVal.str eventStatuses.LIVE) → d "showEndedAt" = none →
      ∃ x, (changeStatus id d db now).1 = some x ∧
        x "showStartedAt" = some (TS now) ∧ x "showEndedAt" = ev "showEndedAt")
    ∧ (d "status" = some (JsVal.str eventStatuses.CLOSED) → d "showStartedAt" = none →
      ∃ x, (changeStatus id d db now).1 = some x ∧
        x "showEndedAt" = some (TS now) ∧ x "showStartedAt" = ev "showStartedAt")
    ∧ (∀ v, d "status" = some v → v ≠ JsVal.str eventStatuses.LIVE →
      v ≠ JsVal.str eventStatuses.CLOSED →
      d "showStartedAt" = none → d "showEndedAt" = none →
      ∃ x, (changeStatus id d db now).1 = some x ∧
        x "showStartedAt" = ev "showStartedAt" ∧ x "showEndedAt" = ev "showEndedAt") := by
  refine ⟨?_, ?_, ?_⟩
  · intro hs hend
    have h1 : (changeStatus id d db now).1 =
        getEvent id (dbUpdate id (buildEvent eventProps
          (rMerge (timestampUpdate now) (objSet d "showStartedAt" (TS now)))) db) := by
      rw [changeStatus_reduce_live id d db now hs]
    rw [h1, getEvent_dbUpdate_self id _ db ev hev]
    refine ⟨_, rfl, ?_, ?_⟩
    · apply rMerge_eq_of_some
      exact payload_key_some _ now _ _ (by decide) (by decide) (by decide) (by decide)
        (objSet_self d "showStartedAt" (TS now))
    · have hP : buildEvent eventProps
          (rMerge (timestampUpdate now) (objSet d "showStartedAt" (TS now))) "showEndedAt"
            = none :=
        payload_key_none _ now _ (by decide) (by decide) (by decide) (by decide) (by decide)
          (by rw [objSet_ne _ _ _ _ (by decide)]; exact hend)
      exact rMerge_eq_of_none _ _ _ hP
  · intro hs hstart
    have hn1 : ¬ d "status" = some (JsVal.str eventStatuses.LIVE) := by
      rw [hs]; decide
    have h1 : (changeStatus id d db now).1 =
        getEvent id (dbUpdate id (buildEvent eventProps
          (rMerge (timestampUpdate now) (objSet d "showEndedAt" (TS now)))) db) := by
      rw [changeStatus_reduce_closed id d db now hn1 hs]
    rw [h1, getEvent_dbUpdate_self id _ db ev hev]
    refine ⟨_, rfl, ?_, ?_⟩
    · apply rMerge_eq_of_some
      exact payload_key_some _ now _ _ (by decide) (by decide) (by decide) (by decide)
        (objSet_self d "showEndedAt" (TS now))
    · have hP : buildEvent eventProps
          (rMerge (timestampUpdate now) (objSet d "showEndedAt" (TS now))) "showStartedAt"
            = none :=
        payload_key_none _ now _ (by decide) (by decide) (by decide) (by decide) (by decide)
          (by rw [objSet_ne _ _ _ _ (by decide)]; exact hstart)
      exact rMerge_eq_of_none _ _ _ hP
  · intro v hs hv1 hv2 hstart hend
    have hn1 : ¬ d "status" = some (JsVal.str eventStatuses.LIVE) := by
      rw [hs]; intro hc; exact hv1 (Option.some.inj hc)
    have hn2 : ¬ d "status" = some (JsVal.str eventStatuses.CLOSED) := by
      rw [hs]; intro hc; exact hv2 (Option.some.inj hc)
    have h1 : (changeStatus id d db now).1 =
        getEvent id (dbUpdate id (buildEvent eventProps
          (rMerge (timestampUpdate now) d)) db) := by
      rw [changeStatus_reduce_other id d db now hn1 hn2]
    rw [h1, getEvent_dbUpdate_self id _ db ev hev]
    refine ⟨_, rfl, ?_, ?_⟩
    · have hP : buildEvent eventProps (rMerge (timestampUpdate now) d) "showStartedAt"
          = none :=
        payload_key_none _ now _ (by decide) (by decide) (by decide) (by decide) (by decide)
          hstart
      exact rMerge_eq_of_none _ _ _ hP
    · have hP : buildEvent eventProps (rMerge (timestampUpdate now) d) "showEndedAt"
          = none :=
        payload_key_none _ now _ (by decide) (by decide) (by decide) (by decide) (by decide)
          hend
      exact rMerge_eq_of_none _ _ _ hP

/-- C1 witness: going live on a previously closed event stamps
`showStartedAt` with the current time and keeps the stored
`showEndedAt`. -/
theorem changeStatus_timestamp_rules_witness :
    ∃ x, (changeStatus "e1" dLiveW dbW1 7).1 = some x ∧
      x "showStartedAt" = some (TS 7) ∧ x "showEndedAt" = evW1 "showEndedAt" :=
  (changeStatus_timestamp_rules "e1" dbW1 dLiveW 7 evW1 rfl).1 rfl rfl

/-- C7: for every existing event and every status payload,
`changeStatus` persists the update and the value it returns is exactly
the refreshed stored record, which carries the new status along with
the timestamp the lifecycle rules stamp for it: `showStartedAt` for a
`live` payload, `showEndedAt` for a `closed` payload, and no extra
timestamp for any other non-null status value (the payload assumed not
to carry the timestamp keys itself, as in the status-only payloads of
the spec). -/
theorem changeStatus_returns_refreshed (id : String) (db : DB) (d : JsObj) (now : Int)
    (ev : JsObj) (hev : getEvent id db = some ev) :
    (d "status" = some (JsVal.str eventStatuses.LIVE) →
      ∃ x, (changeStatus id d db now).1 = some x ∧
        getEvent id (changeStatus id d db now).2 = some x ∧
        x "status" = some (JsVal.str eventStatuses.LIVE) ∧
        x "showStartedAt" = some (TS now))
    ∧ (d "status" = some (JsVal.str eventStatuses.CLOSED) →
      ∃ x, (changeStatus id d db now).1 = some x ∧
        getEvent id (changeStatus id d db now).2 = some x ∧
        x "status" = some (JsVal.str eventStatuses.CLOSED) ∧
        x "showEndedAt" = some (TS now))
    ∧ (∀ v, d "status" = some v → v ≠ JsVal.str eventStatuses.LIVE →
        v ≠ JsVal.str eventStatuses.CLOSED → v ≠ JsVal.null →
        d "showStartedAt" = none → d "showEndedAt" = none →
      ∃ x, (changeStatus id d db now).1 = some x ∧
        getEvent id (changeStatus id d db now).2 = some x ∧
        x "status" = some v ∧
        x "showStartedAt" = ev "showStartedAt" ∧
        x "showEndedAt" = ev "showEndedAt") := by
  refine ⟨?_, ?_, ?_⟩
  · intro hs
    have hpair := changeStatus_reduce_live id d db now hs
    have h1 : (changeStatus id d db now).1 =
        getEvent id (dbUpdate id (buildEvent eventProps
          (rMerge (timestampUpdate now) (objSet d "showStartedAt" (TS now)))) db) := by
      rw [hpair]
    have h2 : (changeStatus id d db now).2 =
        dbUpdate id (buildEvent eventProps
          (rMerge (timestampUpdate now) (objSet d "showStartedAt" (TS now)))) db := by
      rw [hpair]
    rw [h1, h2, getEvent_dbUpdate_self id _ db ev hev]
    refine ⟨_, rfl, rfl, ?_, ?_⟩
    · apply rMerge_eq_of_some
      apply payload_status _ now _ ?_ (by decide)
      rw [objSet_ne _ _ _ _ (by decide)]
      exact hs
    · apply rMerge_eq_of_some
      exact payload_key_some _ now _ _ (by decide) (by decide) (by decide) (by decide)
        (objSet_self d "showStartedAt" (TS now))
  · intro hs
    have hn1 : ¬ d "status" = some (JsVal.str eventStatuses.LIVE) := by
      rw [hs]; decide
    have hpair := changeStatus_reduce_closed id d db now hn1 hs
    have h1 : (changeStatus id d db now).1 =
        getEvent id (dbUpdate id (buildEvent eventProps
          (rMerge (timestampUpdate now) (objSet d "showEndedAt" (TS now)))) db) := by
      rw [hpair]
    have h2 : (changeStatus id d db now).2 =
        dbUpdate id (buildEvent eventProps
          (rMerge (timestampUpdate now) (objSet d "showEndedAt" (TS now)))) db := by
      rw [hpair]
    rw [h1, h2, getEvent_dbUpdate_self id _ db ev hev]
    refine ⟨_, rfl, rfl, ?_, ?_⟩
    · apply rMerge_eq_of_some
      apply payload_status _ now _ ?_ (by decide)
      rw [objSet_ne _ _ _ _ (by decide)]
      exact hs
    · apply rMerge_eq_of_some
      exact payload_key_some _ now _ _ (by decide) (by decide) (by decide) (by decide)
        (objSet_self d "showEndedAt" (TS now))
  · intro v hs hv1 hv2 hvn hstart hend
    have hn1 : ¬ d "status" = some (JsVal.str eventStatuses.LIVE) := by
      rw [hs]; intro hc; exact hv1 (Option.some.inj hc)
    have hn2 : ¬ d "status" = some (JsVal.str eventStatuses.CLOSED) := by
      rw [hs]; intro hc; exact hv2 (Option.some.inj hc)
    have hpair := changeStatus_reduce_other id d db now hn1 hn2
    have h1 : (changeStatus id d db now).1 =
        getEvent id (dbUpdate id (buildEvent eventProps
          (rMerge (timestampUpdate now) d)) db) := by
      rw [hpair]
    have h2 : (changeStatus id d db now).2 =
        dbUpdate id (buildEvent eventProps (rMerge (timestampUpdate now) d)) db := by
      rw [hpair]
    rw [h1, h2, getEvent_dbUpdate_self id _ db ev hev]
    refine ⟨_, rfl, rfl, ?_, ?_, ?_⟩
    · apply rMerge_eq_of_some
      exact payload_status _ now _ hs hvn
    · exact rMerge_eq_of_none _ _ _
        (payload_key_none _ now _ (by decide) (by decide) (by decide) (by decide)
          (by decide) hstart)
    · exact rMerge_eq_of_none _ _ _
        (payload_key_none _ now _ (by decide) (by decide) (by decide) (by decide)
          (by decide) hend)

/-- C7 witness: the concrete go-live call and the concrete closing
call each return the stored refreshed record with the new status and
the respective stamped timestamp. -/
theorem changeStatus_returns_refreshed_witness :
    (∃ x, (changeStatus "e1" dLiveW dbW1 7).1 = some x ∧
      getEvent "e1" (changeStatus "e1" dLiveW dbW1 7).2 = some x ∧
      x "status" = some (JsVal.str eventStatuses.LIVE) ∧
      x "showStartedAt" = some (TS 7))
    ∧ (∃ x, (changeStatus "e1" dClosedW dbW1 9).1 = some x ∧
      getEvent "e1" (changeStatus "e1" dClosedW dbW1 9).2 = some x ∧
      x "status" = some (JsVal.str eventStatuses.CLOSED) ∧
      x "showEndedAt" = some (TS 9)) :=
  ⟨(changeStatus_returns_refreshed "e1" dbW1 dLiveW 7 evW1 rfl).1 rfl,
   (changeStatus_returns_refreshed "e1" dbW1 dClosedW 9 evW1 rfl).2.1 rfl⟩

/-- C4: `getEventByKey` only returns an event owned by the given admin
whose slug field equals the slug; when every event carrying the slug
is owned by a different admin it returns none; when an event with the
slug and the owner exists it returns one; and the omitted `field`
argument defaults to `fanUrl`. -/
theorem getEventByKey_ownership (adminId slug field : String) (db : DB) :
    (∀ x, getEventByKey adminId slug field db = some x →
        x "adminId" = some (JsVal.str adminId) ∧ x field = some (JsVal.str slug))
    ∧ ((∀ p ∈ db, p.2 field = some (JsVal.str slug) →
          ¬ p.2 "adminId" = some (JsVal.str adminId)) →
        getEventByKey adminId slug field db = none)
    ∧ ((∃ p ∈ db, p.2 field = some (JsVal.str slug) ∧
          p.2 "adminId" = some (JsVal.str adminId)) →
        ∃ x, getEventByKey adminId slug field db = some x)
    ∧ (∀ a s, getEventByKeyDefault a s db = getEventByKey a s "fanUrl" db) := by
  refine ⟨?_, ?_, ?_, fun a s => rfl⟩
  · intro x hx
    unfold getEventByKey at hx
    by_cases hemp : ((db.filter (fun p => p.2 field == some (JsVal.str slug))).map
        (fun p => p.2)).isEmpty
    · rw [if_pos hemp] at hx
      exact absurd hx (by simp)
    · rw [if_neg hemp] at hx
      have hq : (x "adminId" == some (JsVal.str adminId)) = true :=
        List.find?_some (p := fun o : JsObj => o "adminId" == some (JsVal.str adminId)) hx
      have hmem := List.mem_of_find?_eq_some hx
      rcases List.mem_map.mp hmem with ⟨p, hp, hpx⟩
      have hpf := (List.mem_filter.mp hp).2
      constructor
      · exact eq_of_beq hq
      · rw [← hpx]
        exact eq_of_beq hpf
  · intro hall
    unfold getEventByKey
    by_cases hemp : ((db.filter (fun p => p.2 field == some (JsVal.str slug))).map
        (fun p => p.2)).isEmpty
    · rw [if_pos hemp]
    · rw [if_neg hemp]
      rw [List.find?_eq_none]
      intro x hx hq
      rcases List.mem_map.mp hx with ⟨p, hp, hpx⟩
      have hpf := (List.mem_filter.mp hp).2
      have hpm := (List.mem_filter.mp hp).1
      apply hall p hpm (eq_of_beq hpf)
      rw [hpx]
      exact eq_of_beq hq
  · rintro ⟨p, hp, hf, ha⟩
    unfold getEventByKey
    have hmem : p.2 ∈ (db.filter (fun q => q.2 field == some (JsVal.str slug))).map
        (fun q => q.2) :=
      List.mem_map.mpr ⟨p, List.mem_filter.mpr ⟨hp, beq_iff_eq.mpr hf⟩, rfl⟩
    have hemp : ((db.filter (fun q => q.2 field == some (JsVal.str slug))).map
        (fun q => q.2)).isEmpty = false := by
      by_contra hc
      rw [Bool.not_eq_false] at hc
      rw [List.isEmpty_iff.mp hc] at hmem
      simp at hmem
    rw [if_neg (by simp [hemp])]
    have hsome : ((db.filter (fun q => q.2 field == some (JsVal.str slug))).map
        (fun q => q.2)).find? (fun o => o "adminId" == some (JsVal.str adminId)) ≠ none := by
      intro hc
      have := List.find?_eq_none.mp hc p.2 hmem
      exact this (beq_iff_eq.mpr ha)
    rcases Option.ne_none_iff_exists'.mp hsome with ⟨x, hx⟩
    exact ⟨x, hx⟩

/-- C4 witness: the event with fan slug `alpha` is found for its owner
`a1` and hidden from the other admin `a2`. -/
theorem getEventByKey_ownership_witness :
    (∃ x, getEventByKey "a1" "alpha" "fanUrl" dbFan = some x) ∧
      getEventByKey "a2" "alpha" "fanUrl" dbFan = none :=
  ⟨(getEventByKey_ownership "a1" "alpha" "fanUrl" dbFan).2.2.1
      ⟨("e1", evFan), List.mem_singleton.mpr rfl, by decide, by decide⟩,
    (getEventByKey_ownership "a2" "alpha" "fanUrl" dbFan).2.1 (by decide)⟩

theorem create_fst (gw : SessionGw) (admins : Admins) (id : String) (data : JsObj)
    (db : DB) (now : Int) (s1 s2 : String) (a : JsObj)
    (hg0 : gw 0 = Except.ok s1) (hg1 : gw 1 = Except.ok s2)
    (ha : getAdmin admins (data "adminId") = some a) :
    (create gw admins id data db now).1 =
      some (buildEvent eventProps (rMergeAll [timestampCreate now,
        objOf [("id", JsVal.str id)],
        rMergeAll [objOf [("status", JsVal.str eventStatuses.NOT_STARTED),
                          ("rtmpUrl", JsVal.str "")],
          data,
          objOf [("sessionId", JsVal.str s1), ("stageSessionId", JsVal.str s2)]]])) := by
  have hsess : getSessions gw (getAdmin admins (data "adminId")) =
      objOf [("sessionId", JsVal.str s1), ("stageSessionId", JsVal.str s2)] := by
    rw [ha]
    show (match gw 0 with
      | Except.error _ => emptyObj
      | Except.ok t1 =>
        match gw 1 with
        | Except.error _ => emptyObj
        | Except.ok t2 =>
          objOf [("sessionId", JsVal.str t1), ("stageSessionId", JsVal.str t2)]) = _
    rw [hg0, hg1]
  simp only [create, saveEvent]
  rw [hsess]
  exact getEvent_dbSet_self id _ db

/-- C8 counterexample: an event freshly created with distinct session
ids `s1`/`s2` loses its `sessionId` to an `update` whose payload
carries that key — `update` whitelists `sessionId` (the whitelist must
admit it for `save` to work), so the stored value becomes `evil`. -/
theorem sessionIds_mutable_by_update :
    ((create gwOK adminsFix "e1" dataA [] 100).1).map (fun o => o "sessionId")
      = some (some (JsVal.str "s1"))
    ∧ ((update "e1" (objOf [("sessionId", JsVal.str "evil")])
          (create gwOK adminsFix "e1" dataA [] 100).2 200).1).map (fun o => o "sessionId")
      = some (some (JsVal.str "evil")) := by
  constructor
  · decide
  · decide

/-- C8 (amended): an event created via `create` carries the two
freshly provisioned session ids, which differ whenever the two
Gateway calls return distinct ids; and any `update` whose payload
carries neither `sessionId` nor `stageSessionId` leaves both stored
values unchanged. -/
theorem sessionIds_distinct_and_stable (gw : SessionGw) (admins : Admins) (id : String)
    (data : JsObj) (db : DB) (now : Int) (s1 s2 : String) (a : JsObj)
    (hg0 : gw 0 = Except.ok s1) (hg1 : gw 1 = Except.ok s2) (hne : s1 ≠ s2)
    (ha : getAdmin admins (data "adminId") = some a) :
    (∃ x, (create gw admins id data db now).1 = some x ∧
        x "sessionId" = some (JsVal.str s1) ∧
        x "stageSessionId" = some (JsVal.str s2) ∧
        x "sessionId" ≠ x "stageSessionId")
    ∧ (∀ id2 d2 db2 now2 ev, getEvent id2 db2 = some ev →
        d2 "sessionId" = none → d2 "stageSessionId" = none →
        ∃ y, (update id2 d2 db2 now2).1 = some y ∧
          y "sessionId" = ev "sessionId" ∧ y "stageSessionId" = ev "stageSessionId") := by
  constructor
  · rw [create_fst gw admins id data db now s1 s2 a hg0 hg1 ha]
    have hsS : (rMergeAll [objOf [("status", JsVal.str eventStatuses.NOT_STARTED),
          ("rtmpUrl", JsVal.str "")], data,
          objOf [("sessionId", JsVal.str s1), ("stageSessionId", JsVal.str s2)]]) "sessionId"
        = some (JsVal.str s1) := by
      rw [rMergeAll_three]
      exact rMerge_eq_of_some _ _ _ _ rfl
    have hsT : (rMergeAll [objOf [("status", JsVal.str eventStatuses.NOT_STARTED),
          ("rtmpUrl", JsVal.str "")], data,
          objOf [("sessionId", JsVal.str s1), ("stageSessionId", JsVal.str s2)]])
          "stageSessionId" = some (JsVal.str s2) := by
      rw [rMergeAll_three]
      exact rMerge_eq_of_some _ _ _ _ rfl
    have hoS : buildEvent eventProps (rMergeAll [timestampCreate now,
        objOf [("id", JsVal.str id)],
        rMergeAll [objOf [("status", JsVal.str eventStatuses.NOT_STARTED),
          ("rtmpUrl", JsVal.str "")], data,
          objOf [("sessionId", JsVal.str s1), ("stageSessionId", JsVal.str s2)]]]) "sessionId"
        = some (JsVal.str s1) := by
      rw [buildEvent_key _ _ _ (by decide) (by decide) (by decide) (by decide)]
      rw [rMergeAll_three]
      exact rMerge_eq_of_some _ _ _ _ hsS
    have hoT : buildEvent eventProps (rMergeAll [timestampCreate now,
        objOf [("id", JsVal.str id)],
        rMergeAll [objOf [("status", JsVal.str eventStatuses.NOT_STARTED),
          ("rtmpUrl", JsVal.str "")], data,
          objOf [("sessionId", JsVal.str s1), ("stageSessionId", JsVal.str s2)]]])
          "stageSessionId" = some (JsVal.str s2) := by
      rw [buildEvent_key _ _ _ (by decide) (by decide) (by decide) (by decide)]
      rw [rMergeAll_three]
      exact rMerge_eq_of_some _ _ _ _ hsT
    refine ⟨_, rfl, hoS, hoT, ?_⟩
    rw [hoS, hoT]
    simpa using hne
  · intro id2 d2 db2 now2 ev hev hs1 hs2
    have h1 : (update id2 d2 db2 now2).1 =
        getEvent id2 (dbUpdate id2 (buildEvent eventProps
          (rMerge (timestampUpdate now2) d2)) db2) := rfl
    rw [h1, getEvent_dbUpdate_self id2 _ db2 ev hev]
    refine ⟨_, rfl, ?_, ?_⟩
    · exact rMerge_eq_of_none _ _ _
        (payload_key_none _ now2 _ (by decide) (by decide) (by decide) (by decide)
          (by decide) hs1)
    · exact rMerge_eq_of_none _ _ _
        (payload_key_none _ now2 _ (by decide) (by decide) (by decide) (by decide)
          (by decide) hs2)

/-- C8 witness: the concrete creation with gateway ids `s1`/`s2`
stores them distinct. -/
theorem sessionIds_distinct_and_stable_witness :
    ∃ x, (create gwOK adminsFix "e1" dataA [] 100).1 = some x ∧
      x "sessionId" = some (JsVal.str "s1") ∧
      x "stageSessionId" = some (JsVal.str "s2") ∧
      x "sessionId" ≠ x "stageSessionId" :=
  (sessionIds_distinct_and_stable gwOK adminsFix "e1" dataA [] 100 "s1" "s2" adminFixObj
    rfl rfl (by decide) rfl).1

/-- C10: `create` merges defaults, then caller data, then the freshly
provisioned sessions: the stored record always carries the generated
session ids (even when the caller supplied its own), while a
caller-supplied non-null `status` or `rtmpUrl` overrides the defaults
`notStarted` / empty string, which apply only when the caller omitted
the field. -/
theorem create_merge_order (gw : SessionGw) (admins : Admins) (id : String)
    (data : JsObj) (db : DB) (now : Int) (s1 s2 : String) (a : JsObj)
    (hg0 : gw 0 = Except.ok s1) (hg1 : gw 1 = Except.ok s2)
    (ha : getAdmin admins (data "adminId") = some a) :
    ∃ x, (create gw admins id data db now).1 = some x ∧
      x "sessionId" = some (JsVal.str s1) ∧
      x "stageSessionId" = some (JsVal.str s2) ∧
      (∀ v, data "status" = some v → v ≠ JsVal.null → x "status" = some v) ∧
      (data "status" = none → x "status" = some (JsVal.str eventStatuses.NOT_STARTED)) ∧
      (∀ w, data "rtmpUrl" = some w → x "rtmpUrl" = some w) ∧
      (data "rtmpUrl" = none → x "rtmpUrl" = some (JsVal.str "")) := by
  rw [create_fst gw admins id data db now s1 s2 a hg0 hg1 ha]
  refine ⟨_, rfl, ?_, ?_, ?_, ?_, ?_, ?_⟩
  · rw [buildEvent_key _ _ _ (by decide) (by decide) (by decide) (by decide)]
    rw [rMergeAll_three]
    apply rMerge_eq_of_some
    rw [rMergeAll_three]
    exact rMerge_eq_of_some _ _ _ _ rfl
  · rw [buildEvent_key _ _ _ (by decide) (by decide) (by decide) (by decide)]
    rw [rMergeAll_three]
    apply rMerge_eq_of_some
    rw [rMergeAll_three]
    exact rMerge_eq_of_some _ _ _ _ rfl
  · intro v hv hvn
    apply buildEvent_status _ _ _ (by decide) _ hvn
    rw [rMergeAll_three]
    apply rMerge_eq_of_some
    rw [rMergeAll_three]
    rw [rMerge_eq_of_none _ _ _ rfl]
    exact rMerge_eq_of_some _ _ _ _ hv
  · intro hnone
    apply buildEvent_status _ _ _ (by decide) _ (by decide)
    rw [rMergeAll_three]
    apply rMerge_eq_of_some
    rw [rMergeAll_three]
    rw [rMerge_eq_of_none _ _ _ rfl]
    rw [rMerge_eq_of_none _ _ _ hnone]
    rfl
  · intro w hw
    rw [buildEvent_key _ _ _ (by decide) (by decide) (by decide) (by decide)]
    rw [rMergeAll_three]
    apply rMerge_eq_of_some
    rw [rMergeAll_three]
    rw [rMerge_eq_of_none _ _ _ rfl]
    exact rMerge_eq_of_some _ _ _ _ hw
  · intro hnone
    rw [buildEvent_key _ _ _ (by decide) (by decide) (by decide) (by decide)]
    rw [rMergeAll_three]
    apply rMerge_eq_of_some
    rw [rMergeAll_three]
    rw [rMerge_eq_of_none _ _ _ rfl]
    rw [rMerge_eq_of_none _ _ _ hnone]
    rfl

/-- C10 witness: concrete creation where the caller supplies its own
`sessionId`, `status` and `rtmpUrl`. -/
theorem create_merge_order_witness :
    ∃ x, (create gwOK adminsFix "e1" dataC10 [] 100).1 = some x ∧
      x "sessionId" = some (JsVal.str "s1") ∧
      x "stageSessionId" = some (JsVal.str "s2") ∧
      (∀ v, dataC10 "status" = some v → v ≠ JsVal.null → x "status" = some v) ∧
      (dataC10 "status" = none → x "status" = some (JsVal.str eventStatuses.NOT_STARTED)) ∧
      (∀ w, dataC10 "rtmpUrl" = some w → x "rtmpUrl" = some w) ∧
      (dataC10 "rtmpUrl" = none → x "rtmpUrl" = some (JsVal.str "")) :=
  create_merge_order gwOK adminsFix "e1" dataC10 [] 100 "s1" "s2" adminFixObj rfl rfl rfl

theorem jsLtB_and_swap_false (x y : Option JsVal) : (jsLtB x y && jsLtB y x) = false := by
  unfold jsLtB
  rcases x with _ | vx
  · rcases y with _ | vy
    · rfl
    · rcases vy with _ | _ | _ | n <;> rfl
  · rcases y with _ | vy
    · rcases vx with _ | _ | _ | n <;> rfl
    · rcases vx with _ | _ | _ | nx <;> rcases vy with _ | _ | _ | ny <;>
        first
          | rfl
          | (simp only [Bool.and_eq_false_iff, decide_eq_false_iff_not]
             omega)

theorem jsLtB_irrefl (x : Option JsVal) : jsLtB x x = false := by
  unfold jsLtB
  rcases x with _ | v
  · rfl
  · rcases v with _ | _ | _ | n <;> simp

theorem jsLtB_trans_aux (A B C : Option JsVal) (hb : isNumV B = true)
    (h1 : jsLtB B A = false) (h2 : jsLtB C B = false) : jsLtB C A = false := by
  unfold isNumV at hb
  unfold jsLtB at *
  rcases B with _ | vB
  · simp at hb
  · rcases vB with _ | _ | _ | nB
    · simp at hb
    · simp at hb
    · simp at hb
    · rcases A with _ | vA
      · rcases C with _ | vC
        · rfl
        · rcases vC with _ | _ | _ | nC <;> rfl
      · rcases vA with _ | _ | _ | nA
        · rcases C with _ | vC
          · rfl
          · rcases vC with _ | _ | _ | nC <;> rfl
        · rcases C with _ | vC
          · rfl
          · rcases vC with _ | _ | _ | nC <;> rfl
        · rcases C with _ | vC
          · rfl
          · rcases vC with _ | _ | _ | nC <;> rfl
        · rcases C with _ | vC
          · rfl
          · rcases vC with _ | _ | _ | nC
            · rfl
            · rfl
            · rfl
            · simp only [decide_eq_false_iff_not] at h1 h2 ⊢
              omega

theorem createdLe_total (a b : JsObj) : (createdLe a b || createdLe b a) = true := by
  unfold createdLe createdAtLt
  rw [← Bool.not_and, jsLtB_and_swap_false]
  rfl

theorem createdLe_refl (a : JsObj) : createdLe a a = true := by
  unfold createdLe createdAtLt
  rw [jsLtB_irrefl]
  rfl

theorem createdLe_trans_of_num (a b c : JsObj) (hb : isNumV (b "createdAt") = true)
    (hab : createdLe a b = true) (hbc : createdLe b c = true) : createdLe a c = true := by
  unfold createdLe createdAtLt at *
  rw [Bool.not_eq_true'] at hab hbc ⊢
  exact jsLtB_trans_aux _ _ _ hb hab hbc

theorem mem_sortByCreatedAt (l : List JsObj) (x : JsObj) :
    x ∈ sortByCreatedAt l ↔ x ∈ l :=
  (List.mergeSort_perm l createdLe).mem_iff

theorem sortByCreatedAt_pairwise (l : List JsObj)
    (hl : ∀ e ∈ l, isNumV (e "createdAt") = true) :
    (sortByCreatedAt l).Pairwise (fun a b => createdLe a b = true) := by
  have hmap : (l.attach.map (fun x =>
      (⟨x.1, hl x.1 x.2⟩ : {o : JsObj // isNumV (o "createdAt") = true}))).map
        Subtype.val = l := by
    rw [List.map_map]
    simp
  have trans2 : ∀ x y z : {o : JsObj // isNumV (o "createdAt") = true},
      createdLe x.1 y.1 = true → createdLe y.1 z.1 = true → createdLe x.1 z.1 = true :=
    fun x y z hxy hyz => createdLe_trans_of_num x.1 y.1 z.1 y.2 hxy hyz
  have total2 : ∀ x y : {o : JsObj // isNumV (o "createdAt") = true},
      (createdLe x.1 y.1 || createdLe y.1 x.1) = true :=
    fun x y => createdLe_total x.1 y.1
  have hsorted := List.sorted_mergeSort trans2 total2
    (l.attach.map (fun x =>
      (⟨x.1, hl x.1 x.2⟩ : {o : JsObj // isNumV (o "createdAt") = true})))
  have key : (((l.attach.map (fun x =>
      (⟨x.1, hl x.1 x.2⟩ : {o : JsObj // isNumV (o "createdAt") = true}))).mergeSort
        (fun x y => createdLe x.1 y.1)).map Subtype.val) = sortByCreatedAt l := by
    rw [List.map_mergeSort (s := createdLe) (f := Subtype.val) (fun a _ b _ => rfl), hmap]
    rfl
  rw [← key]
  exact List.pairwise_map.mpr hsorted

theorem find?_min_of_pairwise (p : JsObj → Bool) (l : List JsObj) (x : JsObj)
    (hp : l.Pairwise (fun a b => createdLe a b = true))
    (hx : l.find? p = some x) :
    ∀ y ∈ l, p y = true → createdLe x y = true := by
  induction l with
  | nil => simp at hx
  | cons a tl ih =>
    rcases List.pairwise_cons.mp hp with ⟨ha, htl⟩
    by_cases hpa : p a = true
    · rw [List.find?_cons_of_pos tl hpa] at hx
      have hax := Option.some.inj hx
      subst hax
      intro y hy hpy
      rcases List.mem_cons.mp hy with h | h
      · rw [h]
        exact createdLe_refl a
      · exact ha y h
    · rw [List.find?_cons_of_neg tl (by simpa using hpa)] at hx
      intro y hy hpy
      rcases List.mem_cons.mp hy with h | h
      · rw [h] at hpy
        exact absurd hpy hpa
      · exact ih htl hx y h hpy

/-- C3: among the admin-owned events (all of whose `createdAt` stamps
are numbers, as the store writes them), `mostRecentActive` returns a
`live` event whenever one exists — even if a `preshow` event was
created later — else a `preshow` event if one exists, else none; the
returned event is one no other event of the preferred status strictly
precedes by `createdAt`. -/
theorem mostRecentActive_selection (adminId : String) (db : DB)
    (hnum : ∀ e ∈ getEvents adminId db, isNumV (e "createdAt") = true) :
    ((∃ e ∈ getEvents adminId db, statusIs eventStatuses.LIVE e = true) →
      ∃ x, getMostRecentEvent adminId db = some x ∧
        statusIs eventStatuses.LIVE x = true ∧
        x ∈ getEvents adminId db ∧
        ∀ y ∈ getEvents adminId db, statusIs eventStatuses.LIVE y = true →
          createdAtLt y x = false)
    ∧ ((∀ e ∈ getEvents adminId db, statusIs eventStatuses.LIVE e = false) →
       (∃ e ∈ getEvents adminId db, statusIs eventStatuses.PRESHOW e = true) →
      ∃ x, getMostRecentEvent adminId db = some x ∧
        statusIs eventStatuses.PRESHOW x = true ∧
        x ∈ getEvents adminId db ∧
        ∀ y ∈ getEvents adminId db, statusIs eventStatuses.PRESHOW y = true →
          createdAtLt y x = false)
    ∧ (((∀ e ∈ getEvents adminId db, statusIs eventStatuses.LIVE e = false) ∧
        (∀ e ∈ getEvents adminId db, statusIs eventStatuses.PRESHOW e = false)) →
        getMostRecentEvent adminId db = none) := by
  have hpar : (sortByCreatedAt (getEvents adminId db)).Pairwise
      (fun a b => createdLe a b = true) := sortByCreatedAt_pairwise _ hnum
  refine ⟨?_, ?_, ?_⟩
  · rintro ⟨e, he, hse⟩
    have hne : (getEvents adminId db).isEmpty = false := by
      by_contra hc
      rw [Bool.not_eq_false] at hc
      rw [List.isEmpty_iff.mp hc] at he
      simp at he
    have hfind : ∃ x, (sortByCreatedAt (getEvents adminId db)).find?
        (statusIs eventStatuses.LIVE) = some x := by
      have hmem : e ∈ sortByCreatedAt (getEvents adminId db) :=
        (mem_sortByCreatedAt _ _).mpr he
      exact Option.ne_none_iff_exists'.mp
        (fun hc => (List.find?_eq_none.mp hc e hmem) hse)
    rcases hfind with ⟨x, hx⟩
    have hres : getMostRecentEvent adminId db = some x := by
      simp only [getMostRecentEvent]
      rw [if_neg (by simp [hne])]
      unfold filterByStatus
      rw [hx]
    refine ⟨x, hres, List.find?_some hx,
      (mem_sortByCreatedAt _ _).mp (List.mem_of_find?_eq_some hx), ?_⟩
    intro y hy hsy
    have hyS : y ∈ sortByCreatedAt (getEvents adminId db) :=
      (mem_sortByCreatedAt _ _).mpr hy
    have hle := find?_min_of_pairwise _ _ _ hpar hx y hyS hsy
    simpa [createdLe] using hle
  · intro hnl
    rintro ⟨e, he, hse⟩
    have hne : (getEvents adminId db).isEmpty = false := by
      by_contra hc
      rw [Bool.not_eq_false] at hc
      rw [List.isEmpty_iff.mp hc] at he
      simp at he
    have hlnone : (sortByCreatedAt (getEvents adminId db)).find?
        (statusIs eventStatuses.LIVE) = none := by
      rw [List.find?_eq_none]
      intro y hy
      rw [hnl y ((mem_sortByCreatedAt _ _).mp hy)]
      simp
    have hfind : ∃ x, (sortByCreatedAt (getEvents adminId db)).find?
        (statusIs eventStatuses.PRESHOW) = some x := by
      have hmem : e ∈ sortByCreatedAt (getEvents adminId db) :=
        (mem_sortByCreatedAt _ _).mpr he
      exact Option.ne_none_iff_exists'.mp
        (fun hc => (List.find?_eq_none.mp hc e hmem) hse)
    rcases hfind with ⟨x, hx⟩
    have hres : getMostRecentEvent adminId db = some x := by
      simp only [getMostRecentEvent]
      rw [if_neg (by simp [hne])]
      unfold filterByStatus
      rw [hlnone, hx]
    refine ⟨x, hres, List.find?_some hx,
      (mem_sortByCreatedAt _ _).mp (List.mem_of_find?_eq_some hx), ?_⟩
    intro y hy hsy
    have hyS : y ∈ sortByCreatedAt (getEvents adminId db) :=
      (mem_sortByCreatedAt _ _).mpr hy
    have hle := find?_min_of_pairwise _ _ _ hpar hx y hyS hsy
    simpa [createdLe] using hle
  · rintro ⟨hnl, hnp⟩
    by_cases hemp : (getEvents adminId db).isEmpty = true
    · simp only [getMostRecentEvent]
      rw [if_pos hemp]
    · have hlnone : (sortByCreatedAt (getEvents adminId db)).find?
          (statusIs eventStatuses.LIVE) = none := by
        rw [List.find?_eq_none]
        intro y hy
        rw [hnl y ((mem_sortByCreatedAt _ _).mp hy)]
        simp
      have hpnone : (sortByCreatedAt (getEvents adminId db)).find?
          (statusIs eventStatuses.PRESHOW) = none := by
        rw [List.find?_eq_none]
        intro y hy
        rw [hnp y ((mem_sortByCreatedAt _ _).mp hy)]
        simp
      simp only [getMostRecentEvent]
      rw [if_neg hemp]
      unfold filterByStatus
      rw [hlnone, hpnone]

/-- C3 witness: a `live` event created after a `preshow` event is
still the one selected. -/
theorem mostRecentActive_selection_witness :
    ∃ x, getMostRecentEvent "aw" dbW = some x ∧
      statusIs eventStatuses.LIVE x = true ∧
      x ∈ getEvents "aw" dbW ∧
      ∀ y ∈ getEvents "aw" dbW, statusIs eventStatuses.LIVE y = true →
        createdAtLt y x = false :=
  (mostRecentActive_selection "aw" dbW (by decide)).1 (by decide)
